import Mathlib

/-!
Shallow embedding of `services/geminiService.ts` from the
Jal Suraksha Kavach disease-monitoring repository, the "Offline Advisory
Service": pure string-building helpers over in-memory state-level disease
records and water-quality reports, plus a pseudo-random mock report
generator.  JS numbers that the module only compares against exact
thresholds (pH, turbidity, coordinates, the random draw) are modelled as
rationals; counts are naturals.  `Math.random()` is modelled as an explicit
parameter `rand` with `0 ≤ rand < 1`.
-/

namespace JalSuraksha

/-- Modelled from the spec: a disease entry of a `StateData` record
(declared in `types.ts`, which is not part of the sources): a disease name
and an affected count. -/
structure DiseaseEntry where
  name : String
  affected : Nat
deriving DecidableEq, Repr

/-- Modelled from the spec: `StateData` (the spec's StateRecord), declared
in `types.ts`: a state name, a non-negative total-affected count, and an
ordered list of disease entries. -/
structure StateData where
  name : String
  totalAffected : Nat
  diseases : List DiseaseEntry
deriving DecidableEq, Repr

/-- Modelled from the spec: `WaterQualityReport` (the spec's
WaterQualityRecord), declared in `types.ts`: site name, site type, pH and
turbidity readings. -/
structure WaterQualityReport where
  siteName : String
  siteType : String
  ph : ℚ
  turbidity : ℚ
deriving DecidableEq, Repr

/-- The `contextData` argument shape of the assistant functions. -/
structure OfflineContext where
  states : List StateData
  reports : List WaterQualityReport
deriving DecidableEq, Repr

/-- The exported `JalAssistantResponse` type: `audioBase64?` and
`audioMimeType?` are optional fields, modelled as `Option`. -/
structure JalAssistantResponse where
  text : String
  audioBase64 : Option String
  audioMimeType : Option String
deriving DecidableEq, Repr

/-- JS `String.prototype.toLowerCase`, modelled as a character-wise
lower-casing of the string's character list. -/
def jsToLower (s : String) : String :=
  String.mk (s.data.map Char.toLower)

/-- JS `String.prototype.includes`: substring containment, true when the
pattern occurs (contiguously) at some offset of the string. -/
def strIncludes (s pat : String) : Bool :=
  (List.range (s.data.length + 1)).any fun i => pat.data.isPrefixOf (s.data.drop i)

/-- The sentence template of `getTopStateSummary`'s non-empty branch. -/
def topStateSentence (top : StateData) : String :=
  top.name ++ " currently has the highest reported disease burden with " ++
    toString top.totalAffected ++ " affected cases."

/-- The JS sort comparator `(a, b) => b.totalAffected - a.totalAffected`
of `getTopStateSummary`, as the boolean order "a may precede b", i.e. the
comparator is ≤ 0: descending by `totalAffected`. -/
def totalAffectedDesc (a b : StateData) : Bool :=
  decide (b.totalAffected ≤ a.totalAffected)

/-- `getTopStateSummary`: sorts a copy of `states` descending by
`totalAffected` and reports the first element; fixed sentence when
empty. -/
def getTopStateSummary (states : List StateData) : String :=
  match states with
  | [] => "No state disease data is available yet."
  | s :: rest =>
      let sorted := (s :: rest).mergeSort totalAffectedDesc
      topStateSentence (sorted.headD s)

/-- The sentence template of `getRecentWaterSummary`'s non-empty branch,
with the verdict substituted. -/
def waterSentence (latest : WaterQualityReport) (verdict : String) : String :=
  "Latest site " ++ latest.siteName ++ " (" ++ latest.siteType ++ ") shows pH " ++
    toString latest.ph ++ " and turbidity " ++ toString latest.turbidity ++
    " NTU, which " ++ verdict ++ "."

/-- `getRecentWaterSummary`: describes the last report with a verdict
decided by `ph >= 6.5 && ph <= 8.5` and `turbidity < 5`; fixed sentence
when empty. -/
def getRecentWaterSummary (reports : List WaterQualityReport) : String :=
  match reports with
  | [] => "No recent water quality reports are available."
  | r :: rest =>
      let latest := (r :: rest).getLast (List.cons_ne_nil r rest)
      waterSentence latest
        (if (6.5 ≤ latest.ph ∧ latest.ph ≤ 8.5) ∧ latest.turbidity < 5 then
          "within safe range"
        else "needs attention")

/-- `getOfflineAssistantReply`: lower-cases the query and routes it through
four keyword branches, first match wins. -/
def getOfflineAssistantReply (userQuery : String) (contextData : OfflineContext) : String :=
  let q := jsToLower userQuery
  if strIncludes q "ph" || strIncludes q "safe range" then
    "The safe pH range for drinking water is 6.5 to 8.5."
  else if strIncludes q "state" || strIncludes q "disease" || strIncludes q "cases" then
    getTopStateSummary contextData.states ++ " " ++ getRecentWaterSummary contextData.reports
  else if strIncludes q "water" || strIncludes q "quality" || strIncludes q "turbidity" then
    getRecentWaterSummary contextData.reports
  else
    "I am running in offline mode without external AI APIs. " ++
      (getTopStateSummary contextData.states ++ " " ++ getRecentWaterSummary contextData.reports)

/-- The TS `topDisease?.name || "water-borne disease"` of
`generateHealthReport`, where `topDisease` is `stateData.diseases[0]`: the
`||` falls back both when the list is empty (`topDisease?.name` is
undefined) and when the first name is the empty string (JS falsiness). -/
def topConcernName (stateData : StateData) : String :=
  match stateData.diseases.head? with
  | some d => if d.name = "" then "water-borne disease" else d.name
  | none => "water-borne disease"

/-- The TS `topDisease?.affected || 0` of `generateHealthReport`: on
naturals, `n || 0` is `n`, so only the empty-list fallback remains. -/
def topConcernCount (stateData : StateData) : Nat :=
  match stateData.diseases.head? with
  | some d => d.affected
  | none => 0

/-- `generateHealthReport` (async in TS, but never suspends): names the
state, the total, and the top concern derived from `diseases[0]`. -/
def generateHealthReport (stateData : StateData) : String :=
  "Offline analysis for " ++ stateData.name ++ ": total affected " ++
    toString stateData.totalAffected ++ ". Top concern is " ++
    topConcernName stateData ++ " with " ++ toString (topConcernCount stateData) ++
    " reported cases.\n\nRECOMMENDATION: Prioritize chlorination checks and ORS stock in high-burden districts this week."

/-- `suggestPreventiveMeasures` (async in TS): three fixed strings chosen
by case-insensitive substring match on the disease name. -/
def suggestPreventiveMeasures (diseaseName : String) : List String :=
  let defaults := ["Drink boiled or filtered water", "Wash hands with soap before meals",
    "Avoid uncovered street food"]
  let disease := jsToLower diseaseName
  if strIncludes disease "cholera" then
    ["Use chlorinated drinking water", "Wash fruits and utensils with clean water",
      "Use ORS and seek care immediately for severe diarrhea"]
  else if strIncludes disease "typhoid" then
    ["Drink safe water only", "Avoid raw cut fruits from unknown vendors",
      "Complete prescribed antibiotics from a doctor"]
  else defaults

/-- `askJalAssistantWithVoice`: wraps the offline reply in a response
envelope whose audio fields are never populated; `_languageCode` is
accepted and unused. -/
def askJalAssistantWithVoice (userQuery : String) (contextData : OfflineContext)
    (_languageCode : String) : JalAssistantResponse :=
  { text := getOfflineAssistantReply userQuery contextData
    audioBase64 := none
    audioMimeType := none }

/-- `askJalAssistant`: the text field of the voice variant's response. -/
def askJalAssistant (userQuery : String) (contextData : OfflineContext)
    (languageCode : String) : String :=
  (askJalAssistantWithVoice userQuery contextData languageCode).text

/-- One `key_metrics` entry of the mock report. -/
structure KeyMetric where
  name : String
  value : String
  unit : String
  status : String
deriving DecidableEq, Repr

/-- The hardcoded fallback coordinates of the mock report. -/
structure Coordinates where
  lat : ℚ
  lng : ℚ
deriving DecidableEq, Repr

/-- The mock report object returned by `getMockAdvancedReport`. -/
structure AdvancedReport where
  title : String
  overall_status : String
  score : Nat
  verdict : String
  summary : String
  key_metrics : List KeyMetric
  alerts : List String
  recommendations : List String
  coordinates : Coordinates
  is_simulated : Bool
deriving DecidableEq, Repr

/-- The `location` argument of `getMockAdvancedReport`; only `city` is
read. -/
structure MockLocation where
  city : String
deriving DecidableEq, Repr

/-- `getMockAdvancedReport`: classifies `reportType` into water / disease /
other buckets, draws `score = Math.floor(rand * 40) + 50` from the random
draw `rand ∈ [0, 1)` passed explicitly here, and fills a fixed report
shape.  The TS initialiser `let verdict = "Analysis Inconclusive"` is dead
(every branch of the following if/else chain overwrites it), so it does
not appear. -/
def getMockAdvancedReport (reportType : String) (location : MockLocation)
    (rand : ℚ) : AdvancedReport :=
  let isWater := strIncludes (jsToLower reportType) "water" ||
    strIncludes (jsToLower reportType) "groundwater"
  let isDisease := strIncludes (jsToLower reportType) "disease" ||
    strIncludes (jsToLower reportType) "hospital"
  let score := (⌊rand * 40⌋).toNat + 50
  let isSafe := decide (75 < score)
  let verdict :=
    if isWater then (if isSafe then "Safe for Consumption" else "Requires Filtration")
    else if isDisease then (if isSafe then "Low Health Risk" else "Elevated Viral Risk")
    else (if isSafe then "Stable Conditions" else "Caution Advised")
  { title := reportType ++ " - Simulated Analysis"
    overall_status := if isSafe then "Safe" else "Caution"
    score := score
    verdict := verdict
    summary := "This is a simulated report for " ++ location.city ++
      " because the AI service is currently unreachable (likely Free Tier rate limit). Data suggests " ++
      (if isWater then
        (if isSafe then "water parameters are within acceptable limits."
         else "turbidity levels are slightly high, boiling advised.")
       else if isDisease then "seasonal variations in local health data."
       else "nominal environmental parameters.")
    key_metrics := [
      { name := if isWater then "pH Level" else if isDisease then "Daily OPD" else "Larval Density"
        value := if isWater then "7.4" else if isDisease then "145" else "12"
        unit := if isWater then "" else if isDisease then "patients" else "per dip"
        status := "Neutral" },
      { name := if isWater then "Turbidity" else if isDisease then "Viral Fever" else "Fogging Coverage"
        value := if isWater then "12" else if isDisease then "45" else "85"
        unit := if isWater then "NTU" else if isDisease then "cases" else "%"
        status := if isWater then "Bad" else "Neutral" },
      { name := if isWater then "Dissolved Oxygen" else if isDisease then "Bed Occupancy" else "Stagnant Water"
        value := if isWater then "6.2" else if isDisease then "68" else "Low"
        unit := if isWater then "mg/L" else if isDisease then "%" else "risk"
        status := "Good" },
      { name := if isWater then "E. Coli" else if isDisease then "Critical Cases" else "Vector Index"
        value := if isWater then "4" else if isDisease then "2" else "0.4"
        unit := if isWater then "CFU" else if isDisease then "cases" else ""
        status := "Good" }]
    alerts := ["Simulated Alert: Data based on historical averages due to connection issue."]
    recommendations := ["Check internet connection or API quota.",
      "Verify field data manually before taking action.",
      "Proceed with standard operating procedures."]
    coordinates := { lat := 26.1445, lng := 91.7362 }
    is_simulated := true }

/-- `getAdvancedReport` (async in TS): logs a notice (a side effect with no
bearing on the result, dropped here) and returns the mock report
unchanged. -/
def getAdvancedReport (reportType : String) (location : MockLocation)
    (rand : ℚ) : AdvancedReport :=
  getMockAdvancedReport reportType location rand

/-! Helper lemmas. -/

/-- A string whose character list decomposes around `x.data` contains `x`
as a substring. -/
theorem strIncludes_of_data (s x : String) (u v : List Char)
    (h : s.data = u ++ x.data ++ v) : strIncludes s x = true := by
  unfold strIncludes
  rw [List.any_eq_true]
  refine ⟨u.length, ?_, ?_⟩
  · rw [List.mem_range, h]
    simp only [List.length_append]
    omega
  · rw [h, List.append_assoc, List.drop_left]
    rw [ List.isPrefixOf_iff_prefix]
    exact List.prefix_append _ _

/-- The comparator order is transitive. -/
theorem totalAffectedDesc_trans (a b c : StateData)
    (hab : totalAffectedDesc a b = true) (hbc : totalAffectedDesc b c = true) :
    totalAffectedDesc a c = true := by
  simp only [totalAffectedDesc, decide_eq_true_eq] at *
  omega

/-- The comparator order is total. -/
theorem totalAffectedDesc_total (a b : StateData) :
    (totalAffectedDesc a b || totalAffectedDesc b a) = true := by
  simp only [totalAffectedDesc, Bool.or_eq_true, decide_eq_true_eq]
  omega

/-! Claim theorems. -/

/-- Claim C1: for a non-empty `states` list, `getTopStateSummary` returns
the sentence naming an element of the list whose `totalAffected` is
greatest; for the empty list it returns the exact fixed no-data string. -/
theorem getTopStateSummary_spec :
    getTopStateSummary [] = "No state disease data is available yet." ∧
    ∀ states : List StateData, states ≠ [] →
      ∃ top ∈ states, getTopStateSummary states = topStateSentence top ∧
        ∀ s ∈ states, s.totalAffected ≤ top.totalAffected := by
  refine ⟨rfl, ?_⟩
  intro states hne
  match states, hne with
  | s :: rest, _ =>
    have hperm : ((s :: rest).mergeSort totalAffectedDesc).Perm (s :: rest) :=
      List.mergeSort_perm _ _
    have hsorted : List.Pairwise (fun a b => totalAffectedDesc a b = true)
        ((s :: rest).mergeSort totalAffectedDesc) :=
      List.sorted_mergeSort totalAffectedDesc_trans totalAffectedDesc_total _
    obtain ⟨top, tail, heq⟩ :
        ∃ top tail, (s :: rest).mergeSort totalAffectedDesc = top :: tail := by
      cases h : (s :: rest).mergeSort totalAffectedDesc with
      | nil =>
          rw [h] at hperm
          exact absurd (List.perm_nil.mp hperm.symm) (List.cons_ne_nil s rest)
      | cons a l => exact ⟨a, l, rfl⟩
    refine ⟨top, ?_, ?_, ?_⟩
    · exact hperm.mem_iff.mp (heq ▸ List.mem_cons_self top tail)
    · show topStateSentence (((s :: rest).mergeSort totalAffectedDesc).headD s) = _
      rw [heq, List.headD_cons]
    · intro x hx
      have hx' : x ∈ top :: tail := heq ▸ hperm.mem_iff.mpr hx
      rcases List.mem_cons.mp hx' with h | h
      · subst h; exact Nat.le_refl _
      · have := List.rel_of_pairwise_cons (heq ▸ hsorted) h
        simpa [totalAffectedDesc] using this

/-- Witness for C1: a concrete two-state list whose maximum is the second
element. -/
theorem getTopStateSummary_witness :
    ([⟨"A", 5, []⟩, ⟨"B", 9, []⟩] : List StateData) ≠ [] ∧
    ∃ top ∈ ([⟨"A", 5, []⟩, ⟨"B", 9, []⟩] : List StateData),
      getTopStateSummary [⟨"A", 5, []⟩, ⟨"B", 9, []⟩] = topStateSentence top ∧
      ∀ s ∈ ([⟨"A", 5, []⟩, ⟨"B", 9, []⟩] : List StateData),
        s.totalAffected ≤ top.totalAffected :=
  ⟨by decide, getTopStateSummary_spec.2 _ (by decide)⟩

/-- Claim C2 (amended): for a non-empty `reports` list the summary is the
sentence template instantiated with verdict "within safe range" exactly
when the last report's pH lies in [6.5, 8.5] and its turbidity is strictly
below 5, and with verdict "needs attention" otherwise; for the empty list
the exact fixed no-data string is returned.  (The original containment
phrasing fails when a site name itself contains the verdict text, see the
counterexample.) -/
theorem getRecentWaterSummary_spec :
    getRecentWaterSummary [] = "No recent water quality reports are available." ∧
    ∀ (reports : List WaterQualityReport) (h : reports ≠ []),
      (getRecentWaterSummary reports =
          waterSentence (reports.getLast h) "within safe range" ↔
        (6.5 ≤ (reports.getLast h).ph ∧ (reports.getLast h).ph ≤ 8.5) ∧
          (reports.getLast h).turbidity < 5) ∧
      (¬ ((6.5 ≤ (reports.getLast h).ph ∧ (reports.getLast h).ph ≤ 8.5) ∧
            (reports.getLast h).turbidity < 5) →
        getRecentWaterSummary reports = waterSentence (reports.getLast h) "needs attention") := by
  refine ⟨rfl, ?_⟩
  intro reports h
  match reports, h with
  | r :: rest, _ =>
    show (waterSentence _ _ = _ ↔ _) ∧ (_ → waterSentence _ _ = _)
    set latest := (r :: rest).getLast (List.cons_ne_nil r rest) with hlatest
    by_cases hc : (6.5 ≤ latest.ph ∧ latest.ph ≤ 8.5) ∧ latest.turbidity < 5
    · rw [if_pos hc]
      exact ⟨⟨fun _ => hc, fun _ => rfl⟩, fun hc' => absurd hc hc'⟩
    · rw [if_neg hc]
      refine ⟨⟨fun heq => ?_, fun hc' => absurd hc' hc⟩, fun _ => rfl⟩
      have hlen := congrArg String.length heq
      have h15 : ("needs attention" : String).length = 15 := rfl
      have h17 : ("within safe range" : String).length = 17 := rfl
      simp only [waterSentence, String.length_append, h15, h17] at hlen
      omega

/-- Witness for C2: a single in-range report; the summary carries the
"within safe range" verdict. -/
theorem getRecentWaterSummary_witness :
    getRecentWaterSummary [⟨"S", "Well", 7, 2⟩] =
      waterSentence ⟨"S", "Well", 7, 2⟩ "within safe range" :=
  ((getRecentWaterSummary_spec.2 [⟨"S", "Well", 7, 2⟩] (List.cons_ne_nil _ _)).1).mpr
    (by norm_num)

/-- Counterexample for C2 as stated: a report whose site name is itself the
string "within safe range" with out-of-range pH 9 makes the summary
contain "within safe range" even though the safety condition fails, so the
containment if-and-only-if is false. -/
theorem getRecentWaterSummary_contains_cx :
    strIncludes (getRecentWaterSummary [⟨"within safe range", "Well", 9, 2⟩])
      "within safe range" = true ∧
    ¬ ((6.5 ≤ ((9 : ℚ)) ∧ ((9 : ℚ)) ≤ 8.5) ∧ ((2 : ℚ)) < 5) := by
  refine ⟨?_, by norm_num⟩
  have h1 : getRecentWaterSummary [⟨"within safe range", "Well", 9, 2⟩] =
      waterSentence ⟨"within safe range", "Well", 9, 2⟩ "needs attention" := by
    show waterSentence _ (if ((6.5:ℚ) ≤ 9 ∧ (9:ℚ) ≤ 8.5) ∧ (2:ℚ) < 5 then
      "within safe range" else "needs attention") = _
    rw [if_neg (by norm_num)]
    rfl
  rw [h1]
  exact strIncludes_of_data _ _ ("Latest site ".data)
    (" (Well) shows pH 9 and turbidity 2 NTU, which needs attention.".data) (by decide)

/-- Claim C3: whenever the lower-cased query contains "ph" or "safe range",
`getOfflineAssistantReply` returns the fixed pH-fact string for every
context, so this branch has priority over the other three. -/
theorem offline_ph_branch (userQuery : String) (contextData : OfflineContext)
    (h : strIncludes (jsToLower userQuery) "ph" = true ∨
      strIncludes (jsToLower userQuery) "safe range" = true) :
    getOfflineAssistantReply userQuery contextData =
      "The safe pH range for drinking water is 6.5 to 8.5." := by
  unfold getOfflineAssistantReply
  rcases h with h | h <;> simp [h]

/-- Witness for C3: the spec's example query, on an arbitrary concrete
context. -/
theorem offline_ph_branch_witness :
    (strIncludes (jsToLower "What is the safe pH range?") "ph" = true ∨
      strIncludes (jsToLower "What is the safe pH range?") "safe range" = true) ∧
    getOfflineAssistantReply "What is the safe pH range?" ⟨[], []⟩ =
      "The safe pH range for drinking water is 6.5 to 8.5." :=
  ⟨Or.inl (by decide), offline_ph_branch _ _ (Or.inl (by decide))⟩

/-- Claim C4 (amended): for a query whose lower-cased form contains
"disease" but neither "ph" nor "safe range" (the pH branch is tested
first and would otherwise win), and any context with non-empty states and
reports, `getOfflineAssistantReply` — and hence `askJalAssistant` for any
language code — returns the space-separated concatenation of
`getTopStateSummary` and `getRecentWaterSummary` on that context. -/
theorem offline_disease_concat (userQuery lang : String)
    (states : List StateData) (reports : List WaterQualityReport)
    (hd : strIncludes (jsToLower userQuery) "disease" = true)
    (hp : strIncludes (jsToLower userQuery) "ph" = false)
    (hs : strIncludes (jsToLower userQuery) "safe range" = false)
    (_hst : states ≠ []) (_hrep : reports ≠ []) :
    getOfflineAssistantReply userQuery ⟨states, reports⟩ =
      getTopStateSummary states ++ " " ++ getRecentWaterSummary reports ∧
    askJalAssistant userQuery ⟨states, reports⟩ lang =
      getTopStateSummary states ++ " " ++ getRecentWaterSummary reports := by
  have h1 : getOfflineAssistantReply userQuery ⟨states, reports⟩ =
      getTopStateSummary states ++ " " ++ getRecentWaterSummary reports := by
    unfold getOfflineAssistantReply
    simp [hd, hp, hs]
  exact ⟨h1, h1⟩

/-- Witness for C4: the query "disease update" with singleton context. -/
theorem offline_disease_concat_witness :
    getOfflineAssistantReply "disease update" ⟨[⟨"A", 5, []⟩], [⟨"S", "Well", 7, 2⟩]⟩ =
      getTopStateSummary [⟨"A", 5, []⟩] ++ " " ++ getRecentWaterSummary [⟨"S", "Well", 7, 2⟩] ∧
    askJalAssistant "disease update" ⟨[⟨"A", 5, []⟩], [⟨"S", "Well", 7, 2⟩]⟩ "en" =
      getTopStateSummary [⟨"A", 5, []⟩] ++ " " ++ getRecentWaterSummary [⟨"S", "Well", 7, 2⟩] :=
  offline_disease_concat "disease update" "en" _ _ (by decide) (by decide) (by decide)
    (List.cons_ne_nil _ _) (List.cons_ne_nil _ _)

/-- Counterexample for C4 as stated: the query "ph disease" contains
"disease", yet the reply is the pH fact, not the concatenation of the two
summaries, because the pH branch is tested first. -/
theorem offline_disease_concat_cx :
    strIncludes (jsToLower "ph disease") "disease" = true ∧
    getOfflineAssistantReply "ph disease" ⟨[⟨"A", 5, []⟩], [⟨"S", "Well", 7, 2⟩]⟩ ≠
      getTopStateSummary [⟨"A", 5, []⟩] ++ " " ++ getRecentWaterSummary [⟨"S", "Well", 7, 2⟩] := by
  refine ⟨by decide, ?_⟩
  have hL : getOfflineAssistantReply "ph disease" ⟨[⟨"A", 5, []⟩], [⟨"S", "Well", 7, 2⟩]⟩ =
      "The safe pH range for drinking water is 6.5 to 8.5." := by
    unfold getOfflineAssistantReply
    simp [show strIncludes (jsToLower "ph disease") "ph" = true from by decide]
  have hT : getTopStateSummary [(⟨"A", 5, []⟩ : StateData)] = topStateSentence ⟨"A", 5, []⟩ := by
    show topStateSentence (([(⟨"A", 5, []⟩ : StateData)].mergeSort totalAffectedDesc).headD _) = _
    rw [List.mergeSort_singleton, List.headD_cons]
  have hW : getRecentWaterSummary [⟨"S", "Well", 7, 2⟩] =
      waterSentence ⟨"S", "Well", 7, 2⟩ "within safe range" := by
    show waterSentence _ (if ((6.5:ℚ) ≤ 7 ∧ (7:ℚ) ≤ 8.5) ∧ (2:ℚ) < 5 then
      "within safe range" else "needs attention") = _
    rw [if_pos (by norm_num)]
    rfl
  rw [hL, hT, hW]
  decide

/-- Claim C5: a name whose lower-cased form contains "cholera" gets the
three cholera-specific strings in order; a name containing neither
"cholera" nor "typhoid" gets the three generic defaults in order; the
result always has exactly three entries (and the Lean function is total,
so the call always succeeds). -/
theorem suggestPreventiveMeasures_spec (diseaseName : String) :
    (strIncludes (jsToLower diseaseName) "cholera" = true →
      suggestPreventiveMeasures diseaseName =
        ["Use chlorinated drinking water", "Wash fruits and utensils with clean water",
          "Use ORS and seek care immediately for severe diarrhea"]) ∧
    (strIncludes (jsToLower diseaseName) "cholera" = false →
      strIncludes (jsToLower diseaseName) "typhoid" = false →
      suggestPreventiveMeasures diseaseName =
        ["Drink boiled or filtered water", "Wash hands with soap before meals",
          "Avoid uncovered street food"]) ∧
    (suggestPreventiveMeasures diseaseName).length = 3 := by
  unfold suggestPreventiveMeasures
  refine ⟨fun h => by simp [h], fun h1 h2 => by simp [h1, h2], ?_⟩
  by_cases h1 : strIncludes (jsToLower diseaseName) "cholera" = true
  · simp [h1]
  · by_cases h2 : strIncludes (jsToLower diseaseName) "typhoid" = true <;>
      simp [h1, h2]

/-- Witness for C5: the spec's examples "Cholera outbreak" and "flu". -/
theorem suggestPreventiveMeasures_witness :
    suggestPreventiveMeasures "Cholera outbreak" =
      ["Use chlorinated drinking water", "Wash fruits and utensils with clean water",
        "Use ORS and seek care immediately for severe diarrhea"] ∧
    suggestPreventiveMeasures "flu" =
      ["Drink boiled or filtered water", "Wash hands with soap before meals",
        "Avoid uncovered street food"] :=
  ⟨(suggestPreventiveMeasures_spec "Cholera outbreak").1 (by decide),
    (suggestPreventiveMeasures_spec "flu").2.1 (by decide) (by decide)⟩

/-- Claim C6: `generateHealthReport` is total in this embedding (it never
signals an error); its output contains the state's name and total-affected
count, and the first disease entry's name and count when one exists with a
non-empty name; when the disease list is empty it silently falls back to
the literal "water-borne disease" with count 0. -/
theorem generateHealthReport_spec (s : StateData) :
    strIncludes (generateHealthReport s) s.name = true ∧
    strIncludes (generateHealthReport s) (toString s.totalAffected) = true ∧
    (∀ d rest, s.diseases = d :: rest → d.name ≠ "" →
      strIncludes (generateHealthReport s) d.name = true ∧
      strIncludes (generateHealthReport s) (toString d.affected) = true) ∧
    (s.diseases = [] →
      generateHealthReport s =
        "Offline analysis for " ++ s.name ++ ": total affected " ++
          toString s.totalAffected ++ ". Top concern is " ++ "water-borne disease" ++
          " with " ++ "0" ++
          " reported cases.\n\nRECOMMENDATION: Prioritize chlorination checks and ORS stock in high-burden districts this week.") := by
  refine ⟨?_, ?_, ?_, ?_⟩
  · exact strIncludes_of_data _ _ ("Offline analysis for ".data)
      ((": total affected " ++ toString s.totalAffected ++ ". Top concern is " ++
        topConcernName s ++ " with " ++ toString (topConcernCount s) ++
        " reported cases.\n\nRECOMMENDATION: Prioritize chlorination checks and ORS stock in high-burden districts this week.").data)
      (by simp [generateHealthReport, String.data_append, List.append_assoc])
  · exact strIncludes_of_data _ _
      (("Offline analysis for " ++ s.name ++ ": total affected ").data)
      ((". Top concern is " ++ topConcernName s ++ " with " ++
        toString (topConcernCount s) ++
        " reported cases.\n\nRECOMMENDATION: Prioritize chlorination checks and ORS stock in high-burden districts this week.").data)
      (by simp [generateHealthReport, String.data_append, List.append_assoc])
  · intro d rest hdis hname
    have hn : topConcernName s = d.name := by
      simp [topConcernName, hdis, hname]
    have hcnt : topConcernCount s = d.affected := by
      simp [topConcernCount, hdis]
    constructor
    · exact strIncludes_of_data _ _
        (("Offline analysis for " ++ s.name ++ ": total affected " ++
          toString s.totalAffected ++ ". Top concern is ").data)
        ((" with " ++ toString (topConcernCount s) ++
          " reported cases.\n\nRECOMMENDATION: Prioritize chlorination checks and ORS stock in high-burden districts this week.").data)
        (by simp [generateHealthReport, hn, String.data_append, List.append_assoc])
    · exact strIncludes_of_data _ _
        (("Offline analysis for " ++ s.name ++ ": total affected " ++
          toString s.totalAffected ++ ". Top concern is " ++ topConcernName s ++
          " with ").data)
        ((" reported cases.\n\nRECOMMENDATION: Prioritize chlorination checks and ORS stock in high-burden districts this week.").data)
        (by simp [generateHealthReport, hcnt, String.data_append, List.append_assoc])
  · intro hdis
    simp only [generateHealthReport, topConcernName, topConcernCount, hdis, List.head?_nil]
    rfl

/-- Witness for C6: a record with an empty disease list; the report falls
back to "water-borne disease" and count 0. -/
theorem generateHealthReport_witness :
    generateHealthReport ⟨"Assam", 12, []⟩ =
      "Offline analysis for " ++ "Assam" ++ ": total affected " ++
        toString ((12 : Nat)) ++ ". Top concern is " ++ "water-borne disease" ++
        " with " ++ "0" ++
        " reported cases.\n\nRECOMMENDATION: Prioritize chlorination checks and ORS stock in high-burden districts this week." :=
  (generateHealthReport_spec ⟨"Assam", 12, []⟩).2.2.2 rfl

/-- Claim C8: the language code never influences `askJalAssistant` or
`askJalAssistantWithVoice` (two-run noninterference), and the voice
response's audio fields are always absent. -/
theorem askJal_language_noninterference (userQuery : String)
    (contextData : OfflineContext) (l1 l2 : String) :
    askJalAssistant userQuery contextData l1 = askJalAssistant userQuery contextData l2 ∧
    askJalAssistantWithVoice userQuery contextData l1 =
      askJalAssistantWithVoice userQuery contextData l2 ∧
    (askJalAssistantWithVoice userQuery contextData l1).audioBase64 = none ∧
    (askJalAssistantWithVoice userQuery contextData l1).audioMimeType = none :=
  ⟨rfl, rfl, rfl, rfl⟩

/-- Claim C7 (amended): for every report type, location and random draw
`rand ∈ [0, 1)`, the mock report's score is an integer in [50, 89] (the
code computes `50 + floor(rand * 40)`, so 90 is never attained, contrary
to the claimed inclusive upper end 90); `overall_status` is "Safe" exactly
when the score is strictly greater than 75 and "Caution" otherwise;
`is_simulated` is always true; and `key_metrics` has exactly 4 entries. -/
theorem getMockAdvancedReport_spec (reportType : String) (location : MockLocation)
    (rand : ℚ) (_h0 : 0 ≤ rand) (h1 : rand < 1) :
    50 ≤ (getMockAdvancedReport reportType location rand).score ∧
    (getMockAdvancedReport reportType location rand).score ≤ 89 ∧
    ((getMockAdvancedReport reportType location rand).overall_status = "Safe" ↔
      75 < (getMockAdvancedReport reportType location rand).score) ∧
    ((getMockAdvancedReport reportType location rand).overall_status = "Safe" ∨
      (getMockAdvancedReport reportType location rand).overall_status = "Caution") ∧
    (getMockAdvancedReport reportType location rand).is_simulated = true ∧
    ((getMockAdvancedReport reportType location rand).key_metrics).length = 4 := by
  have hscore : (getMockAdvancedReport reportType location rand).score =
      (⌊rand * 40⌋).toNat + 50 := rfl
  have hfl : (⌊rand * 40⌋).toNat ≤ 39 := by
    have h40 : rand * 40 < 40 := by nlinarith
    have hlt : ⌊rand * 40⌋ < 40 := by
      rw [Int.floor_lt]
      exact_mod_cast h40
    omega
  have hos : (getMockAdvancedReport reportType location rand).overall_status =
      if decide (75 < (⌊rand * 40⌋).toNat + 50) = true then "Safe" else "Caution" := rfl
  refine ⟨by omega, by omega, ?_, ?_, rfl, rfl⟩
  · rw [hos, hscore]
    by_cases hc : 75 < (⌊rand * 40⌋).toNat + 50 <;> simp [hc]
  · rw [hos]
    by_cases hc : 75 < (⌊rand * 40⌋).toNat + 50 <;> simp [hc]

/-- Witness for C7: the spec's example call with the draw 1/2. -/
theorem getMockAdvancedReport_witness :
    (0 : ℚ) ≤ 1 / 2 ∧ (1 / 2 : ℚ) < 1 ∧
    (50 ≤ (getMockAdvancedReport "Groundwater Test" ⟨"X"⟩ (1 / 2)).score ∧
      (getMockAdvancedReport "Groundwater Test" ⟨"X"⟩ (1 / 2)).score ≤ 89 ∧
      ((getMockAdvancedReport "Groundwater Test" ⟨"X"⟩ (1 / 2)).overall_status = "Safe" ↔
        75 < (getMockAdvancedReport "Groundwater Test" ⟨"X"⟩ (1 / 2)).score) ∧
      ((getMockAdvancedReport "Groundwater Test" ⟨"X"⟩ (1 / 2)).overall_status = "Safe" ∨
        (getMockAdvancedReport "Groundwater Test" ⟨"X"⟩ (1 / 2)).overall_status = "Caution") ∧
      (getMockAdvancedReport "Groundwater Test" ⟨"X"⟩ (1 / 2)).is_simulated = true ∧
      ((getMockAdvancedReport "Groundwater Test" ⟨"X"⟩ (1 / 2)).key_metrics).length = 4) :=
  ⟨by norm_num, by norm_num,
    getMockAdvancedReport_spec "Groundwater Test" ⟨"X"⟩ (1 / 2) (by norm_num) (by norm_num)⟩

/-- Counterexample for C7 as stated: the score 90, although inside the
claimed inclusive range [50, 90] of the uniform draw, is attained by no
random draw in [0, 1), since `floor(rand * 40) ≤ 39`. -/
theorem getMockAdvancedReport_score_ne_90 :
    ¬ ∃ rand : ℚ, 0 ≤ rand ∧ rand < 1 ∧
      (getMockAdvancedReport "Groundwater Test" ⟨"X"⟩ rand).score = 90 := by
  rintro ⟨r, h0, h1, hs⟩
  have hscore : (getMockAdvancedReport "Groundwater Test" ⟨"X"⟩ r).score =
      (⌊r * 40⌋).toNat + 50 := rfl
  rw [hscore] at hs
  have h40 : (40 : ℤ) ≤ ⌊r * 40⌋ := by omega
  have hle : (40 : ℚ) ≤ r * 40 := by exact_mod_cast Int.le_floor.mp h40
  nlinarith

/-- Claim C10: when the report type matches both the water keywords and
the disease keywords, the water bucket wins: verdict, summary and all four
key metrics equal those produced for the plain water report type. -/
theorem getMockAdvancedReport_water_priority (reportType : String)
    (location : MockLocation) (rand : ℚ)
    (hw : (strIncludes (jsToLower reportType) "water" ||
      strIncludes (jsToLower reportType) "groundwater") = true)
    (_hd : (strIncludes (jsToLower reportType) "disease" ||
      strIncludes (jsToLower reportType) "hospital") = true) :
    (getMockAdvancedReport reportType location rand).verdict =
      (getMockAdvancedReport "water" location rand).verdict ∧
    (getMockAdvancedReport reportType location rand).summary =
      (getMockAdvancedReport "water" location rand).summary ∧
    (getMockAdvancedReport reportType location rand).key_metrics =
      (getMockAdvancedReport "water" location rand).key_metrics := by
  have hw2 : (strIncludes (jsToLower "water") "water" ||
      strIncludes (jsToLower "water") "groundwater") = true := by decide
  unfold getMockAdvancedReport
  simp only [hw, hw2, if_true]
  exact ⟨trivial, trivial, trivial⟩

/-- Witness for C10: the report type "waterborne disease" matches both
keyword sets and yields the water-bucket fields. -/
theorem getMockAdvancedReport_water_priority_witness :
    (getMockAdvancedReport "waterborne disease" ⟨"X"⟩ (1 / 2)).verdict =
      (getMockAdvancedReport "water" ⟨"X"⟩ (1 / 2)).verdict ∧
    (getMockAdvancedReport "waterborne disease" ⟨"X"⟩ (1 / 2)).summary =
      (getMockAdvancedReport "water" ⟨"X"⟩ (1 / 2)).summary ∧
    (getMockAdvancedReport "waterborne disease" ⟨"X"⟩ (1 / 2)).key_metrics =
      (getMockAdvancedReport "water" ⟨"X"⟩ (1 / 2)).key_metrics :=
  getMockAdvancedReport_water_priority "waterborne disease" ⟨"X"⟩ (1 / 2)
    (by decide) (by decide)

end JalSuraksha
